import Mathlib

/-!
Verification of the scanning/aggregation engine of `disk_analyzer.py`
(`get_folder_size` and `analyze_directory`) against its specification.

The filesystem is modelled as a tree: a node is either a regular file
(whose `stat` either succeeds, yielding its byte length, or raises) or a
directory (whose `scandir` listing either succeeds, yielding the named
children in listing order, or raises).  Failures are tagged with the
exception kind the Python code distinguishes: `PermissionError` or a
generic `OSError` carrying a message.
-/

namespace DiskAnalyzer

/-- The exception kinds distinguished by the source: `PermissionError`,
or any other `OSError` carrying a message. -/
inductive ErrKind where
  | perm : ErrKind
  | os (msg : String) : ErrKind
deriving DecidableEq, Repr

/-- A filesystem node.  `file sz err`: a regular file; `err = none` means
`entry.stat()` succeeds and reports `sz` bytes, `err = some k` means the
stat raises `k`.  `dir err children`: a directory; `err = none` means
`os.scandir` succeeds and yields `children` in listing order,
`err = some k` means the listing raises `k`. -/
inductive FSNode where
  | file (size : Nat) (err : Option ErrKind) : FSNode
  | dir (err : Option ErrKind) (children : List (String × FSNode)) : FSNode

/-- One element of the list built by `analyze_directory`: the dict
`{"name", "size", "is_dir", "path"}`, with the optional `"error"` key
modelled as an `Option String`. -/
structure Item where
  name : String
  size : Nat
  is_dir : Bool
  path : String
  error : Option String
deriving DecidableEq, Repr

mutual

/-- Embeds `get_folder_size(folder_path)` (src/disk_analyzer.py:38-65).
`os.scandir` on a file raises `NotADirectoryError` (an `OSError`), and a
failing listing raises `PermissionError`/`OSError`; all are caught by the
`except` clauses at lines 58-64, which `pass`, so the function returns
the running total (still 0) and never raises. -/
def get_folder_size : FSNode → Nat
  | .file _ _ => 0
  | .dir (some _) _ => 0
  | .dir none children => get_folder_size_loop children

/-- The `for entry in os.scandir(folder_path)` loop body of
`get_folder_size` (lines 42-57): a readable file adds its `st_size`, a
file whose stat raises is skipped (lines 46-48), and a subdirectory adds
its own `get_folder_size` (line 51; the `except` clauses at 52-57 are
dead because `get_folder_size` never raises). -/
def get_folder_size_loop : List (String × FSNode) → Nat
  | [] => 0
  | (_, .file sz none) :: rest => sz + get_folder_size_loop rest
  | (_, .file _ (some _)) :: rest => get_folder_size_loop rest
  | (_, .dir e cs) :: rest =>
      get_folder_size (.dir e cs) + get_folder_size_loop rest

end

/-- The exception `analyze_directory` raises when the top-level listing
fails (lines 89-96): a `PermissionError` or `OSError` whose message names
the scanned path, chained `from` the underlying cause. -/
inductive ScanError where
  | permission (path : String) : ScanError
  | os (path : String) (cause : String) : ScanError
deriving DecidableEq, Repr

/-- The path carried by a `ScanError` message (`无法扫描目录 {path}: ...`). -/
def ScanError.atPath : ScanError → String
  | .permission p => p
  | .os p _ => p

/-- The `"error"` value the `except` branches of `analyze_directory`
store (lines 82-87): `"权限不足"` for a `PermissionError`, `"OS错误: {e}"`
for any other `OSError`. -/
def errString : ErrKind → String
  | .perm => "权限不足"
  | .os m => "OS错误: " ++ m

/-- The item `analyze_directory` appends for one child (lines 72-87).
A file whose stat succeeds yields its size (lines 80-81); a file whose
stat raises lands in the matching `except` branch (lines 82-87), which
appends size 0 with the `"error"` key set; a directory child calls
`get_folder_size` (line 78), which never raises, so the `except`
branches are unreachable for it and the item is appended without an
`"error"` key.  `entry.path` is the scanned path joined with the name. -/
def childItem (dirPath name : String) : FSNode → Item
  | .file sz none => Item.mk name sz false (dirPath ++ "/" ++ name) none
  | .file _ (some k) =>
      Item.mk name 0 false (dirPath ++ "/" ++ name) (some (errString k))
  | .dir e cs =>
      Item.mk name (get_folder_size (.dir e cs)) true
        (dirPath ++ "/" ++ name) none

/-- The `for entry in os.scandir(directory_path)` loop of
`analyze_directory` (lines 71-87): one item per listed child, in
listing order. -/
def analyze_loop (dirPath : String) : List (String × FSNode) → List Item
  | [] => []
  | (name, child) :: rest => childItem dirPath name child :: analyze_loop dirPath rest

/-- Embeds `items.sort(key=lambda x: x["size"], reverse=True)` (line 99):
insertion of one element into an already size-descending list, passing
exactly the elements of strictly larger size, so that earlier elements
end up before later elements of equal size — CPython's sort is stable
and `reverse=True` preserves stability. -/
def insertItem (x : Item) : List Item → List Item
  | [] => [x]
  | y :: ys => if x.size < y.size then y :: insertItem x ys else x :: y :: ys

/-- The stable size-descending sort of line 99 as a whole. -/
def sortItems : List Item → List Item
  | [] => []
  | x :: xs => insertItem x (sortItems xs)

/-- Embeds `analyze_directory(directory_path)` (lines 67-100).  If the
top-level `os.scandir` raises (the path is a file — `NotADirectoryError`
— or the directory is unlistable) the exception is re-raised with the
path in its message (lines 89-96); otherwise the per-child items are
collected and sorted by size descending. -/
def analyze_directory (node : FSNode) (directory_path : String) :
    Except ScanError (List Item) :=
  match node with
  | .file _ _ => .error (.os directory_path "Not a directory")
  | .dir (some .perm) _ => .error (.permission directory_path)
  | .dir (some (.os m)) _ => .error (.os directory_path m)
  | .dir none children => .ok (sortItems (analyze_loop directory_path children))

/-- Whether the top-level `os.scandir(directory_path)` call of
`analyze_directory` succeeds: only on a directory whose listing does not
raise. -/
def listableTop : FSNode → Bool
  | .dir none _ => true
  | _ => false

/-- The exception `analyze_directory` re-raises when the top-level
listing fails (lines 89-96), carrying the scanned path and the
underlying cause. -/
def topScanError (node : FSNode) (directory_path : String) : ScanError :=
  match node with
  | .file _ _ => .os directory_path "Not a directory"
  | .dir (some .perm) _ => .permission directory_path
  | .dir (some (.os m)) _ => .os directory_path m
  | .dir none _ => .os directory_path ""

mutual

/-- True byte count of a subtree: every file's length, whether or not
any stat or listing would succeed.  Reference notion used to state that
a fully readable subtree is measured exactly. -/
def totalSize : FSNode → Nat
  | .file sz _ => sz
  | .dir _ cs => totalSize_loop cs

/-- Sum of `totalSize` over a listing. -/
def totalSize_loop : List (String × FSNode) → Nat
  | [] => 0
  | (_, c) :: rest => totalSize c + totalSize_loop rest

end

mutual

/-- No access failure anywhere in the subtree: every file stats
successfully and every directory lists successfully. -/
def noErrors : FSNode → Bool
  | .file _ e => e.isNone
  | .dir e cs => e.isNone && noErrors_loop cs

/-- `noErrors` over every child of a listing. -/
def noErrors_loop : List (String × FSNode) → Bool
  | [] => true
  | (_, c) :: rest => noErrors c && noErrors_loop rest

end

mutual

/-- Stated from the specification's words (§3): a directory's size is
the "sum of all recursively reachable file sizes that could be read" —
a file contributes its length when its stat succeeds, an unlistable
directory makes nothing beneath it reachable.  Compared against
`get_folder_size` below. -/
def specReadableSize : FSNode → Nat
  | .file sz e => if e.isNone then sz else 0
  | .dir e cs => if e.isNone then specReadableSize_loop cs else 0

/-- Sum of `specReadableSize` over a listing. -/
def specReadableSize_loop : List (String × FSNode) → Nat
  | [] => 0
  | (_, c) :: rest => specReadableSize c + specReadableSize_loop rest

end

/-- Byte lengths of the direct (immediate) regular files of a listing. -/
def sumFileSizes : List (String × FSNode) → Nat
  | [] => 0
  | (_, .file sz _) :: rest => sz + sumFileSizes rest
  | (_, .dir _ _) :: rest => sumFileSizes rest

/-- Sum of `get_folder_size` over the immediate subdirectories of a
listing. -/
def sumDirSizes : List (String × FSNode) → Nat
  | [] => 0
  | (_, .file _ _) :: rest => sumDirSizes rest
  | (_, .dir e cs) :: rest => get_folder_size (.dir e cs) + sumDirSizes rest

/-- Whether a listing entry is a regular file. -/
def isFileEntry : String × FSNode → Bool
  | (_, .file _ _) => true
  | (_, .dir _ _) => false

mutual

/-- State-passing embedding of `get_folder_size`: the filesystem
subtree is threaded through every `os.scandir`/`stat` call and returned
alongside the size, so that "the call leaves the filesystem unchanged"
is a provable statement rather than an assumption.  The source performs
only read operations, so each case reassembles the subtree it was
given. -/
def get_folder_sizeS : FSNode → Nat × FSNode
  | .file sz e => (0, .file sz e)
  | .dir (some k) cs => (0, .dir (some k) cs)
  | .dir none cs =>
      let r := get_folder_sizeS_loop cs
      (r.1, .dir none r.2)

/-- State-passing embedding of the `get_folder_size` scan loop. -/
def get_folder_sizeS_loop : List (String × FSNode) → Nat × List (String × FSNode)
  | [] => (0, [])
  | (n, .file sz none) :: rest =>
      let r := get_folder_sizeS_loop rest
      (sz + r.1, (n, .file sz none) :: r.2)
  | (n, .file sz (some k)) :: rest =>
      let r := get_folder_sizeS_loop rest
      (r.1, (n, .file sz (some k)) :: r.2)
  | (n, .dir e cs) :: rest =>
      let c := get_folder_sizeS (.dir e cs)
      let r := get_folder_sizeS_loop rest
      (c.1 + r.1, (n, c.2) :: r.2)

end

/-- State-passing embedding of the `analyze_directory` child loop. -/
def analyze_loopS (dirPath : String) :
    List (String × FSNode) → List Item × List (String × FSNode)
  | [] => ([], [])
  | (name, .file sz e) :: rest =>
      let r := analyze_loopS dirPath rest
      (childItem dirPath name (.file sz e) :: r.1, (name, .file sz e) :: r.2)
  | (name, .dir e cs) :: rest =>
      let c := get_folder_sizeS (.dir e cs)
      let r := analyze_loopS dirPath rest
      (Item.mk name c.1 true (dirPath ++ "/" ++ name) none :: r.1,
       (name, c.2) :: r.2)

/-- State-passing embedding of `analyze_directory`: returns the result
together with the filesystem tree after the call. -/
def analyze_directoryS (node : FSNode) (directory_path : String) :
    Except ScanError (List Item) × FSNode :=
  match node with
  | .file sz e => (.error (.os directory_path "Not a directory"), .file sz e)
  | .dir (some .perm) cs => (.error (.permission directory_path), .dir (some .perm) cs)
  | .dir (some (.os m)) cs => (.error (.os directory_path m), .dir (some (.os m)) cs)
  | .dir none cs =>
      let r := analyze_loopS directory_path cs
      (.ok (sortItems r.1), .dir none r.2)

/-! ### Helper lemmas about the sort of line 99 -/

theorem mem_insertItem {a x : Item} {l : List Item} :
    a ∈ insertItem x l ↔ a = x ∨ a ∈ l := by
  induction l with
  | nil => simp [insertItem]
  | cons y ys ih =>
    simp only [insertItem]
    by_cases h : x.size < y.size
    · simp only [if_pos h, List.mem_cons, ih]
      tauto
    · simp only [if_neg h, List.mem_cons]

theorem insertItem_perm (x : Item) (l : List Item) :
    List.Perm (insertItem x l) (x :: l) := by
  induction l with
  | nil => simp [insertItem]
  | cons y ys ih =>
    simp only [insertItem]
    by_cases h : x.size < y.size
    · simp only [if_pos h]
      exact (ih.cons y).trans (List.Perm.swap x y ys)
    · simp only [if_neg h]
      exact List.Perm.refl _

theorem sortItems_perm (l : List Item) : List.Perm (sortItems l) l := by
  induction l with
  | nil => simp [sortItems]
  | cons x xs ih => exact (insertItem_perm x (sortItems xs)).trans (ih.cons x)

theorem mem_sortItems {a : Item} {l : List Item} : a ∈ sortItems l ↔ a ∈ l :=
  (sortItems_perm l).mem_iff

theorem insertItem_pairwise {x : Item} {l : List Item}
    (h : l.Pairwise fun a b => b.size ≤ a.size) :
    (insertItem x l).Pairwise fun a b => b.size ≤ a.size := by
  induction l with
  | nil => simp [insertItem]
  | cons y ys ih =>
    rw [List.pairwise_cons] at h
    simp only [insertItem]
    by_cases hxy : x.size < y.size
    · simp only [if_pos hxy]
      rw [List.pairwise_cons]
      refine ⟨?_, ih h.2⟩
      intro z hz
      rcases mem_insertItem.mp hz with rfl | hz
      · omega
      · exact h.1 z hz
    · simp only [if_neg hxy]
      rw [List.pairwise_cons]
      refine ⟨?_, List.pairwise_cons.mpr h⟩
      intro z hz
      rcases List.mem_cons.mp hz with rfl | hz
      · omega
      · have := h.1 z hz
        omega

theorem sortItems_pairwise (l : List Item) :
    (sortItems l).Pairwise fun a b => b.size ≤ a.size := by
  induction l with
  | nil => simp [sortItems]
  | cons x xs ih =>
    simp only [sortItems]
    exact insertItem_pairwise ih

theorem insertItem_filter (n : Nat) (x : Item) (l : List Item) :
    (insertItem x l).filter (fun i => i.size == n) =
      (x :: l).filter (fun i => i.size == n) := by
  induction l with
  | nil => rfl
  | cons y ys ih =>
    simp only [insertItem]
    by_cases hxy : x.size < y.size
    · simp only [if_pos hxy]
      by_cases hy : y.size = n <;> by_cases hx : x.size = n
      · omega
      all_goals simp [List.filter_cons, hy, hx, ih]
    · simp only [if_neg hxy]

theorem sortItems_filter (n : Nat) (l : List Item) :
    (sortItems l).filter (fun i => i.size == n) =
      l.filter (fun i => i.size == n) := by
  induction l with
  | nil => rfl
  | cons x xs ih =>
    simp only [sortItems]
    rw [insertItem_filter, List.filter_cons, List.filter_cons, ih]

/-! ### Helper lemmas about the child loop of `analyze_directory` -/

theorem analyze_loop_eq_map (dirPath : String) (cs : List (String × FSNode)) :
    analyze_loop dirPath cs = cs.map fun c => childItem dirPath c.1 c.2 := by
  induction cs with
  | nil => rfl
  | cons c rest ih =>
    obtain ⟨name, child⟩ := c
    simp [analyze_loop, ih]

theorem childItem_name (d n : String) (c : FSNode) : (childItem d n c).name = n := by
  match c with
  | .file sz none => rfl
  | .file sz (some k) => rfl
  | .dir e cs => rfl

theorem analyze_loop_names (dirPath : String) (cs : List (String × FSNode)) :
    (analyze_loop dirPath cs).map Item.name = cs.map Prod.fst := by
  induction cs with
  | nil => rfl
  | cons c rest ih =>
    obtain ⟨name, child⟩ := c
    simp [analyze_loop, childItem_name, ih]

theorem childItem_mem_analyze_loop {n : String} {c : FSNode}
    {cs : List (String × FSNode)} (dirPath : String) (h : (n, c) ∈ cs) :
    childItem dirPath n c ∈ analyze_loop dirPath cs := by
  rw [analyze_loop_eq_map]
  exact List.mem_map_of_mem _ h

/-! ### Tree lemmas about `get_folder_size` -/

theorem gfs_loop_eq_totalSize_loop :
    ∀ cs, noErrors_loop cs = true → get_folder_size_loop cs = totalSize_loop cs := by
  apply @get_folder_size_loop.induct
    (fun node => noErrors node = true →
      ∀ e cs, node = FSNode.dir e cs → get_folder_size node = totalSize node)
    (fun cs => noErrors_loop cs = true →
      get_folder_size_loop cs = totalSize_loop cs)
  · intro sz err _ e cs h
    exact FSNode.noConfusion h
  · intro k cs h
    simp [noErrors] at h
  · intro cs ih h _ _ _
    simp only [noErrors, Option.isNone_none, Bool.true_and] at h
    simp only [get_folder_size, totalSize]
    exact ih h
  · intro _
    rfl
  · intro name sz rest ih h
    simp only [noErrors_loop, noErrors, Option.isNone_none, Bool.true_and] at h
    simp only [get_folder_size_loop, totalSize_loop, totalSize]
    rw [ih h]
  · intro name sz k rest ih h
    simp [noErrors_loop, noErrors] at h
  · intro name e cs rest ih1 ih2 h
    simp only [noErrors_loop, Bool.and_eq_true] at h
    simp only [get_folder_size_loop, totalSize_loop]
    rw [ih1 h.1 e cs rfl, ih2 h.2]

theorem gfs_eq_totalSize {e : Option ErrKind} {cs : List (String × FSNode)}
    (h : noErrors (.dir e cs) = true) :
    get_folder_size (.dir e cs) = totalSize (.dir e cs) := by
  cases e with
  | none =>
    simp only [noErrors, Option.isNone_none, Bool.true_and] at h
    simp only [get_folder_size, totalSize]
    exact gfs_loop_eq_totalSize_loop cs h
  | some k => simp [noErrors] at h

theorem gfs_loop_eq_specReadableSize_loop :
    ∀ cs, get_folder_size_loop cs = specReadableSize_loop cs := by
  apply @get_folder_size_loop.induct
    (fun node => ∀ e cs, node = FSNode.dir e cs →
      get_folder_size node = specReadableSize node)
    (fun cs => get_folder_size_loop cs = specReadableSize_loop cs)
  · intro sz err e cs h
    exact FSNode.noConfusion h
  · intro k cs _ _ _
    simp [get_folder_size, specReadableSize]
  · intro cs ih _ _ _
    simp only [get_folder_size, specReadableSize, Option.isNone_none, if_true]
    exact ih
  · rfl
  · intro name sz rest ih
    simp only [get_folder_size_loop, specReadableSize_loop, specReadableSize,
      Option.isNone_none, if_true]
    rw [ih]
  · intro name sz k rest ih
    simp only [get_folder_size_loop, specReadableSize_loop, specReadableSize,
      Option.isNone_some, Bool.false_eq_true, if_false]
    rw [ih]
    omega
  · intro name e cs rest ih1 ih2
    simp only [get_folder_size_loop, specReadableSize_loop]
    rw [ih1 e cs rfl, ih2]

theorem gfs_eq_specReadableSize (e : Option ErrKind) (cs : List (String × FSNode)) :
    get_folder_size (.dir e cs) = specReadableSize (.dir e cs) := by
  cases e with
  | none =>
    simp only [get_folder_size, specReadableSize, Option.isNone_none, if_true]
    exact gfs_loop_eq_specReadableSize_loop cs
  | some k => simp [get_folder_size, specReadableSize]

theorem gfs_loop_decompose :
    ∀ cs, noErrors_loop cs = true →
      get_folder_size_loop cs = sumFileSizes cs + sumDirSizes cs := by
  intro cs
  induction cs with
  | nil => intro _; rfl
  | cons c rest ih =>
    obtain ⟨name, child⟩ := c
    intro h
    simp only [noErrors_loop, Bool.and_eq_true] at h
    cases child with
    | file sz e =>
      simp only [noErrors, Option.isNone_iff_eq_none] at h
      rw [h.1]
      simp only [get_folder_size_loop, sumFileSizes, sumDirSizes]
      rw [ih h.2]
      omega
    | dir e dcs =>
      simp only [get_folder_size_loop, sumFileSizes, sumDirSizes]
      rw [ih h.2]
      omega

theorem sumDirSizes_eq_zero_of_flat :
    ∀ cs, cs.all isFileEntry = true → sumDirSizes cs = 0 := by
  intro cs
  induction cs with
  | nil => intro _; rfl
  | cons c rest ih =>
    obtain ⟨name, child⟩ := c
    intro h
    simp only [List.all_cons, Bool.and_eq_true] at h
    cases child with
    | file sz e =>
      simp only [sumFileSizes, sumDirSizes]
      exact ih h.2
    | dir e dcs => simp [isFileEntry] at h

/-! ### The state-passing embedding agrees with the direct one and
preserves the filesystem -/

theorem gfsS_loop_eq :
    ∀ cs, get_folder_sizeS_loop cs = (get_folder_size_loop cs, cs) := by
  apply @get_folder_sizeS_loop.induct
    (fun node => get_folder_sizeS node = (get_folder_size node, node))
    (fun cs => get_folder_sizeS_loop cs = (get_folder_size_loop cs, cs))
  · intro sz err
    rfl
  · intro k cs
    rfl
  · intro cs ih
    simp only [get_folder_sizeS, get_folder_size, ih]
  · rfl
  · intro name sz rest ih
    simp only [get_folder_sizeS_loop, get_folder_size_loop, ih]
  · intro name sz k rest ih
    simp only [get_folder_sizeS_loop, get_folder_size_loop, ih]
  · intro name e cs rest ih1 ih2
    simp only [get_folder_sizeS_loop, get_folder_size_loop, ih1, ih2]

theorem gfsS_eq (n : FSNode) :
    get_folder_sizeS n = (get_folder_size n, n) := by
  cases n with
  | file sz e => rfl
  | dir e cs =>
    cases e with
    | none => simp only [get_folder_sizeS, get_folder_size, gfsS_loop_eq]
    | some k => rfl

theorem analyze_loopS_eq (p : String) :
    ∀ cs, analyze_loopS p cs = (analyze_loop p cs, cs) := by
  intro cs
  induction cs with
  | nil => rfl
  | cons c rest ih =>
    obtain ⟨name, child⟩ := c
    cases child with
    | file sz e =>
      simp only [analyze_loopS, analyze_loop, ih]
    | dir e dcs =>
      simp only [analyze_loopS, analyze_loop, ih, gfsS_eq, childItem]

theorem analyze_directoryS_eq (n : FSNode) (p : String) :
    analyze_directoryS n p = (analyze_directory n p, n) := by
  cases n with
  | file sz e => rfl
  | dir e cs =>
    cases e with
    | none => simp only [analyze_directoryS, analyze_directory, analyze_loopS_eq]
    | some k => cases k <;> rfl

/-! ### The claims -/

/-- Claim C1, counterexample: for the directory with children A (a
permission-denied subdirectory holding a 7-byte file) and B (a readable
5-byte file), `analyze_directory` returns both entries and B's size is
exact, but A's entry does NOT have its error marker set — `get_folder_size`
absorbs the `PermissionError` internally (lines 58-60) and returns 0
without raising, so the `except` branches of `analyze_directory` never
fire for a directory child. -/
theorem C1_counterexample :
    analyze_directory
        (.dir none [("A", .dir (some .perm) [("f", .file 7 none)]),
                    ("B", .file 5 none)]) "r" =
      Except.ok [Item.mk "B" 5 false "r/B" none,
                 Item.mk "A" 0 true "r/A" none] ∧
    ¬ ∃ i ∈ [Item.mk "B" 5 false "r/B" none, Item.mk "A" 0 true "r/A" none],
        i.name = "A" ∧ i.error ≠ none := by
  constructor
  · rfl
  · decide

/-- Claim C1 as amended: given siblings A (a subdirectory whose listing
fails) and B (error-free), `analyze_directory` returns an entry for
both; B's size equals its true recursive size; A's entry has size 0 but
its error marker is NOT set (`error = none`), because the aggregator
absorbs the failure silently. -/
theorem C1_amended (p : String) (cs : List (String × FSNode))
    (nA nB : String) (kA : ErrKind) (csA : List (String × FSNode)) (B : FSNode)
    (items : List Item)
    (hok : analyze_directory (.dir none cs) p = Except.ok items)
    (hA : (nA, FSNode.dir (some kA) csA) ∈ cs)
    (hB : (nB, B) ∈ cs)
    (hBok : noErrors B = true) :
    Item.mk nA 0 true (p ++ "/" ++ nA) none ∈ items ∧
    childItem p nB B ∈ items ∧
    (childItem p nB B).size = totalSize B ∧
    (childItem p nB B).error = none := by
  have hitems : sortItems (analyze_loop p cs) = items := by
    simpa only [analyze_directory, Except.ok.injEq] using hok
  subst hitems
  refine ⟨?_, ?_, ?_, ?_⟩
  · rw [mem_sortItems]
    have h := childItem_mem_analyze_loop p hA
    simpa only [childItem, get_folder_size] using h
  · rw [mem_sortItems]
    exact childItem_mem_analyze_loop p hB
  · cases B with
    | file sz e =>
      cases e with
      | none => simp [childItem, totalSize]
      | some k => simp [noErrors] at hBok
    | dir e dcs =>
      simp only [childItem]
      exact gfs_eq_totalSize hBok
  · cases B with
    | file sz e =>
      cases e with
      | none => rfl
      | some k => simp [noErrors] at hBok
    | dir e dcs => rfl

/-- Claim C1 amended, witness: the amended theorem applied to the
concrete tree of the counterexample. -/
theorem C1_amended_witness :
    Item.mk "A" 0 true "r/A" none ∈
      [Item.mk "B" 5 false "r/B" none, Item.mk "A" 0 true "r/A" none] ∧
    Item.mk "B" 5 false "r/B" none ∈
      [Item.mk "B" 5 false "r/B" none, Item.mk "A" 0 true "r/A" none] := by
  have h := C1_amended "r"
    [("A", FSNode.dir (some .perm) [("f", FSNode.file 7 none)]),
     ("B", FSNode.file 5 none)]
    "A" "B" ErrKind.perm [("f", FSNode.file 7 none)] (FSNode.file 5 none)
    [Item.mk "B" 5 false "r/B" none, Item.mk "A" 0 true "r/A" none]
    rfl (by simp) (by simp) (by decide)
  exact ⟨h.1, h.2.1⟩

/-- Claim C2, counterexample: `get_folder_size` on an unlistable
directory returns the bare integer 0 — it has no error output at all —
and `analyze_directory` appends the corresponding child entry with NO
error marker even though an aggregation error occurred beneath it. -/
theorem C2_counterexample :
    get_folder_size (.dir (some .perm) [("f", .file 7 none)]) = 0 ∧
    analyze_directory
        (.dir none [("A", .dir (some .perm) [("f", .file 7 none)])]) "r" =
      Except.ok [Item.mk "A" 0 true "r/A" none] ∧
    noErrors (.dir (some .perm) [("f", .file 7 none)]) = false ∧
    ¬ ∃ i ∈ [Item.mk "A" 0 true "r/A" none], i.error ≠ none := by
  refine ⟨rfl, rfl, rfl, by decide⟩

/-- Claim C2 as amended: when a directory cannot be listed,
`get_folder_size` returns 0 without raising — but it signals nothing
(its return type is a plain integer) — and `analyze_directory`
consequently appends every subdirectory child with NO error marker,
whether or not an aggregation error was encountered. -/
theorem C2_amended :
    (∀ k cs, get_folder_size (.dir (some k) cs) = 0) ∧
    (∀ p cs n e dcs items,
      analyze_directory (.dir none cs) p = Except.ok items →
      (n, FSNode.dir e dcs) ∈ cs →
      Item.mk n (get_folder_size (.dir e dcs)) true (p ++ "/" ++ n) none ∈ items) := by
  constructor
  · intro k cs
    rfl
  · intro p cs n e dcs items hok hmem
    have hitems : sortItems (analyze_loop p cs) = items := by
      simpa only [analyze_directory, Except.ok.injEq] using hok
    subst hitems
    rw [mem_sortItems]
    have h := childItem_mem_analyze_loop p hmem
    simpa only [childItem] using h

/-- Claim C2 amended, witness: the amended theorem applied to a
concrete unlistable subdirectory. -/
theorem C2_amended_witness :
    get_folder_size (.dir (some .perm) []) = 0 ∧
    Item.mk "A" 0 true "r/A" none ∈ [Item.mk "A" 0 true "r/A" none] := by
  constructor
  · exact C2_amended.1 ErrKind.perm []
  · exact C2_amended.2 "r" [("A", FSNode.dir (some ErrKind.perm) [])] "A"
      (some ErrKind.perm) [] [Item.mk "A" 0 true "r/A" none] rfl (by simp)

/-- Claim C3: for a directory with no access errors anywhere beneath
it, `get_folder_size` equals the sum of the byte lengths of its direct
files plus the sum of `get_folder_size` over its immediate
subdirectories; for a flat directory (files only) it is exactly the sum
of the files' byte lengths. -/
theorem C3_sum_and_recursive (cs : List (String × FSNode))
    (h : noErrors (.dir none cs) = true) :
    get_folder_size (.dir none cs) = sumFileSizes cs + sumDirSizes cs ∧
    (cs.all isFileEntry = true →
      get_folder_size (.dir none cs) = sumFileSizes cs) := by
  have hl : noErrors_loop cs = true := by
    simpa only [noErrors, Option.isNone_none, Bool.true_and] using h
  constructor
  · simp only [get_folder_size]
    exact gfs_loop_decompose cs hl
  · intro hflat
    simp only [get_folder_size]
    rw [gfs_loop_decompose cs hl, sumDirSizes_eq_zero_of_flat cs hflat]
    omega

/-- Claim C3, witness: the sum property applied to a concrete
error-free tree with one direct file (10 bytes) and one subdirectory
holding a 5-byte file. -/
theorem C3_witness :
    get_folder_size
        (.dir none [("a", .file 10 none),
                    ("s", .dir none [("c", .file 5 none)])]) =
      sumFileSizes [("a", FSNode.file 10 none),
                    ("s", FSNode.dir none [("c", FSNode.file 5 none)])] +
      sumDirSizes [("a", FSNode.file 10 none),
                   ("s", FSNode.dir none [("c", FSNode.file 5 none)])] :=
  (C3_sum_and_recursive _ (by decide)).1

/-- Claim C4: when the top-level listing fails — the path is not a
listable directory — `analyze_directory` fails as a whole with the
re-raised exception carrying the scanned path and the underlying cause,
and this is the only case in which it fails: on a listable directory it
always returns a success. -/
theorem C4_top_level_failure (node : FSNode) (p : String) :
    (listableTop node = false →
      analyze_directory node p = Except.error (topScanError node p) ∧
      (topScanError node p).atPath = p) ∧
    (listableTop node = true →
      ∃ items, analyze_directory node p = Except.ok items) := by
  constructor
  · intro h
    cases node with
    | file sz e => exact ⟨rfl, rfl⟩
    | dir e cs =>
      cases e with
      | none => simp [listableTop] at h
      | some k => cases k <;> exact ⟨rfl, rfl⟩
  · intro h
    cases node with
    | file sz e => simp [listableTop] at h
    | dir e cs =>
      cases e with
      | none => exact ⟨_, rfl⟩
      | some k => simp [listableTop] at h

/-- Claim C4, witness: the theorem applied to a concrete unlistable
directory and to a concrete listable one. -/
theorem C4_witness :
    (analyze_directory (.dir (some ErrKind.perm) []) "r" =
        Except.error (topScanError (.dir (some ErrKind.perm) []) "r") ∧
      (topScanError (.dir (some ErrKind.perm) []) "r").atPath = "r") ∧
    (∃ items, analyze_directory (.dir none []) "r" = Except.ok items) := by
  refine ⟨?_, ?_⟩
  · exact (C4_top_level_failure (.dir (some ErrKind.perm) []) "r").1 rfl
  · exact (C4_top_level_failure (.dir none []) "r").2 rfl

/-- Claim C5: a successful `analyze_directory` result is the listing
items sorted by size in descending order, and the sort is stable —
items of any fixed size appear in their original listing order; in
particular listing sizes [300, 100, 300, 0] come out as
[300, 300, 100, 0] with the two 300-byte entries ("a" before "c") in
their original relative order. -/
theorem C5_sorted_and_stable (p : String) (cs : List (String × FSNode)) :
    analyze_directory (.dir none cs) p =
      Except.ok (sortItems (analyze_loop p cs)) ∧
    (sortItems (analyze_loop p cs)).Pairwise (fun a b => b.size ≤ a.size) ∧
    (∀ n, (sortItems (analyze_loop p cs)).filter (fun i => i.size == n) =
      (analyze_loop p cs).filter (fun i => i.size == n)) ∧
    analyze_directory
        (.dir none [("a", .file 300 none), ("b", .file 100 none),
                    ("c", .file 300 none), ("d", .file 0 none)]) "r" =
      Except.ok [Item.mk "a" 300 false "r/a" none,
                 Item.mk "c" 300 false "r/c" none,
                 Item.mk "b" 100 false "r/b" none,
                 Item.mk "d" 0 false "r/d" none] := by
  refine ⟨rfl, sortItems_pairwise _, fun n => sortItems_filter n _, rfl⟩

/-- Claim C6, counterexample: a permission-denied subdirectory child —
whose size could not truly be obtained — is appended WITHOUT its error
marker, contradicting the claim's assertion that such entries carry the
marker. -/
theorem C6_counterexample :
    analyze_directory
        (.dir none [("A", .dir (some ErrKind.perm) [("g", .file 3 none)])]) "r" =
      Except.ok [Item.mk "A" 0 true "r/A" none] ∧
    noErrors (.dir (some ErrKind.perm) [("g", .file 3 none)]) = false ∧
    ¬ ∃ i ∈ [Item.mk "A" 0 true "r/A" none], i.error ≠ none := by
  refine ⟨rfl, rfl, by decide⟩

/-- Claim C6 as amended: every immediate child of the analyzed
directory appears as exactly one entry (the returned names are a
permutation of the listed names; nothing is silently omitted); a file
child whose stat fails is appended with size 0 and its error marker
set, while a subdirectory whose listing fails is appended with size 0
and NO error marker. -/
theorem C6_amended (p : String) (cs : List (String × FSNode)) (items : List Item)
    (hok : analyze_directory (.dir none cs) p = Except.ok items) :
    List.Perm (items.map Item.name) (cs.map Prod.fst) ∧
    (∀ n sz k, (n, FSNode.file sz (some k)) ∈ cs →
      Item.mk n 0 false (p ++ "/" ++ n) (some (errString k)) ∈ items) ∧
    (∀ n k dcs, (n, FSNode.dir (some k) dcs) ∈ cs →
      Item.mk n 0 true (p ++ "/" ++ n) none ∈ items) := by
  have hitems : sortItems (analyze_loop p cs) = items := by
    simpa only [analyze_directory, Except.ok.injEq] using hok
  subst hitems
  refine ⟨?_, ?_, ?_⟩
  · have hperm := (sortItems_perm (analyze_loop p cs)).map Item.name
    rw [analyze_loop_names] at hperm
    exact hperm
  · intro n sz k h
    rw [mem_sortItems]
    have hm := childItem_mem_analyze_loop p h
    simpa only [childItem] using hm
  · intro n k dcs h
    rw [mem_sortItems]
    have hm := childItem_mem_analyze_loop p h
    simpa only [childItem, get_folder_size] using hm

/-- Claim C6 amended, witness: the amended theorem applied to a
concrete listing with an unlistable subdirectory, an unreadable file
and a readable file. -/
theorem C6_amended_witness :
    Item.mk "A" 0 true "r/A" none ∈
      [Item.mk "b" 9 false "r/b" none, Item.mk "A" 0 true "r/A" none,
       Item.mk "f" 0 false "r/f" (some (errString ErrKind.perm))] ∧
    Item.mk "f" 0 false "r/f" (some (errString ErrKind.perm)) ∈
      [Item.mk "b" 9 false "r/b" none, Item.mk "A" 0 true "r/A" none,
       Item.mk "f" 0 false "r/f" (some (errString ErrKind.perm))] := by
  have h := C6_amended "r"
    [("A", FSNode.dir (some ErrKind.perm) []),
     ("f", FSNode.file 4 (some ErrKind.perm)),
     ("b", FSNode.file 9 none)]
    [Item.mk "b" 9 false "r/b" none, Item.mk "A" 0 true "r/A" none,
     Item.mk "f" 0 false "r/f" (some (errString ErrKind.perm))]
    rfl
  exact ⟨h.2.2 "A" ErrKind.perm [] (by simp), h.2.1 "f" 4 ErrKind.perm (by simp)⟩

/-- Claim C7, counterexample: the entry for a permission-denied
subdirectory (whose 7-byte content could not be measured) has size 0
but its error marker is NOT set, contradicting the claim that every
entry whose size could not be obtained carries the marker. -/
theorem C7_counterexample :
    analyze_directory
        (.dir none [("A", .dir (some ErrKind.perm) [("h", .file 7 none)])]) "q" =
      Except.ok [Item.mk "A" 0 true "q/A" none] ∧
    totalSize (.dir (some ErrKind.perm) [("h", .file 7 none)]) = 7 ∧
    noErrors (.dir (some ErrKind.perm) [("h", .file 7 none)]) = false ∧
    ¬ ∃ i ∈ [Item.mk "A" 0 true "q/A" none], i.error ≠ none := by
  refine ⟨rfl, rfl, rfl, by decide⟩

/-- Claim C7 as amended: every returned entry has a non-negative size
(sizes live in ℕ and Python integers do not wrap); a FILE entry whose
stat fails has size exactly 0 with its error marker set; a directory
entry always has its error marker unset and its size equal to the sum
of all recursively reachable file sizes that could be read (the
specification's own wording, `specReadableSize`) — an inaccessible
subtree is an unmarked undercount. -/
theorem C7_amended (p : String) (cs : List (String × FSNode)) (items : List Item)
    (hok : analyze_directory (.dir none cs) p = Except.ok items) :
    (∀ i, i ∈ items → 0 ≤ (i.size : Int)) ∧
    (∀ n sz k, (n, FSNode.file sz (some k)) ∈ cs →
      Item.mk n 0 false (p ++ "/" ++ n) (some (errString k)) ∈ items) ∧
    (∀ n e dcs, (n, FSNode.dir e dcs) ∈ cs →
      Item.mk n (specReadableSize (.dir e dcs)) true (p ++ "/" ++ n) none ∈ items) := by
  have hitems : sortItems (analyze_loop p cs) = items := by
    simpa only [analyze_directory, Except.ok.injEq] using hok
  subst hitems
  refine ⟨?_, ?_, ?_⟩
  · intro i _
    exact Int.natCast_nonneg i.size
  · intro n sz k h
    rw [mem_sortItems]
    have hm := childItem_mem_analyze_loop p h
    simpa only [childItem] using hm
  · intro n e dcs h
    rw [mem_sortItems]
    have hm := childItem_mem_analyze_loop p h
    simp only [childItem] at hm
    rw [gfs_eq_specReadableSize] at hm
    exact hm

/-- Claim C7 amended, witness: the amended theorem applied to a
concrete listing with an unreadable file and an unlistable
subdirectory. -/
theorem C7_amended_witness :
    Item.mk "f" 0 false "q/f" (some (errString ErrKind.perm)) ∈
      [Item.mk "A" 0 true "q/A" none,
       Item.mk "f" 0 false "q/f" (some (errString ErrKind.perm))] ∧
    Item.mk "A" (specReadableSize (.dir (some ErrKind.perm) [("h", FSNode.file 7 none)]))
        true "q/A" none ∈
      [Item.mk "A" 0 true "q/A" none,
       Item.mk "f" 0 false "q/f" (some (errString ErrKind.perm))] := by
  have h := C7_amended "q"
    [("A", FSNode.dir (some ErrKind.perm) [("h", FSNode.file 7 none)]),
     ("f", FSNode.file 4 (some ErrKind.perm))]
    [Item.mk "A" 0 true "q/A" none,
     Item.mk "f" 0 false "q/f" (some (errString ErrKind.perm))]
    rfl
  exact ⟨h.2.1 "f" 4 ErrKind.perm (by simp),
         h.2.2 "A" (some ErrKind.perm) [("h", FSNode.file 7 none)] (by simp)⟩

/-- Claim C8: `analyze_directory` is deterministic in the filesystem
state and the path — running it a second time on the filesystem left by
the first call (which is unchanged, the operations being reads) yields
an identical result. -/
theorem C8_idempotent (n : FSNode) (p : String) :
    (analyze_directoryS ((analyze_directoryS n p).2) p).1 =
      (analyze_directoryS n p).1 := by
  simp only [analyze_directoryS_eq]

/-- Claim C9: an existing, listable, empty directory analyzes to a
successful empty sequence — distinguishable from an unlistable empty
directory, which fails with the re-raised exception. -/
theorem C9_empty_directory (p : String) :
    analyze_directory (.dir none []) p = Except.ok [] ∧
    (∀ k, analyze_directory (.dir (some k) []) p =
      Except.error (topScanError (.dir (some k) []) p)) := by
  constructor
  · rfl
  · intro k
    cases k <;> rfl

/-- Claim C10: both the size aggregator and the analyzer are read-only
— in the state-passing embedding, the filesystem returned by either
call is exactly the filesystem passed in, whether the call succeeds or
fails. -/
theorem C10_read_only (n : FSNode) (p : String) :
    (get_folder_sizeS n).2 = n ∧ (analyze_directoryS n p).2 = n := by
  constructor
  · rw [gfsS_eq]
  · rw [analyze_directoryS_eq]

end DiskAnalyzer
